import Mathlib

/-
Verification of the file-tools layer of mcp-code-sandbox.

The development shallowly embeds two Python source files:

* `src/tools/file_tools.py` — six tool handlers (`list_files`, `read_file`,
  `write_file`, `upload_file`, `delete_file`, `get_file_metadata`).  Each
  handler looks its `session_id` up in the externally-owned
  `active_sandboxes` registry, delegates to the sandbox handle's file
  interface (`interpreter.files.*`), and wraps the result or the exception
  message in a dictionary envelope.

* `src/sandbox/e2b/e2b_file_interface.py` — the `E2BFileInterface` adapter,
  translating the abstract file interface into calls on the native E2B
  sandbox object (`_sandbox.files.*` / `_sandbox.filesystem.*`).

Modelling choices:

* Python dictionaries returned by the handlers become `Value.dict` with an
  association list of string keys (keys are pairwise distinct in every
  envelope the code builds, so list equality is dictionary equality).
* A Python exception is represented by its message `str(e) : String`;
  a call that may raise returns `Except String`.
* The registry maps session ids to references (`Nat`), and a heap maps
  references to the sandbox backend's mutable state, mirroring Python's
  reference semantics: mutating a sandbox's state never changes the
  registry mapping itself.
* Handlers are parametrised by an arbitrary file interface `F` over an
  arbitrary state type `σ`, so theorems quantify over every possible
  backend behaviour (including ones that record their calls in `σ`).
  A result that holds for every `F` and leaves the world unchanged can
  therefore only be produced without invoking the backend.
* `os.path.join` is modelled with POSIX semantics (the separator used
  throughout the source is `/`).
-/

namespace McpSandbox

/-- Python-style values appearing in handler envelopes and backend results. -/
inductive Value where
  | str (s : String)
  | int (n : Int)
  | bool (b : Bool)
  | list (vs : List Value)
  | dict (kvs : List (String × Value))

/-- The abstract file interface of a sandbox handle (`interpreter.files` in
`file_tools.py`): five operations over a backend state `σ`, each either
returning a result with the updated state or raising an exception message. -/
structure FilesIface (σ : Type) where
  list : String → σ → Except String (Value × σ)
  read : String → σ → Except String (String × σ)
  write : String → String → σ → Except String σ
  delete : String → σ → Except String σ
  stat : String → σ → Except String (Value × σ)

/-- The world a handler call runs in: the externally-owned
`active_sandboxes` registry (session id to sandbox reference) and a heap
giving each sandbox reference its current backend state. -/
structure World (σ : Type) where
  registry : List (String × Nat)
  heap : Nat → σ

/-- Membership/lookup in the registry, as `session_id in self.active_sandboxes`
followed by `self.active_sandboxes[session_id]` (dictionary keys are unique,
so first-match association-list lookup coincides with dictionary lookup). -/
def lookupReg (reg : List (String × Nat)) (sid : String) : Option Nat :=
  match reg with
  | [] => none
  | (k, v) :: rest => if k = sid then some v else lookupReg rest sid

/-- Update the backend state of one sandbox reference; the registry is
untouched (mutating the object a dictionary value points at does not change
the dictionary). -/
def World.setHeap (w : World σ) (r : Nat) (st : σ) : World σ :=
  { w with heap := fun x => if x = r then st else w.heap x }

/-- The error envelope every handler returns for an unknown session id. -/
def noSandboxError (session_id : String) : Value :=
  Value.dict [("error", Value.str
    ("No sandbox found with session ID: " ++ session_id ++ ". Create a sandbox first."))]

/-- Python `s.startswith(pre)`, computed on the character lists. -/
def strStartsWith (s pre : String) : Bool := pre.data.isPrefixOf s.data

/-- Python `s.endswith(suf)`, computed on the character lists. -/
def strEndsWith (s suf : String) : Bool := suf.data.isSuffixOf s.data

/-- `os.path.join(a, b)` with POSIX separator: if `b` is absolute it
discards `a`; otherwise it concatenates, inserting `/` unless `a` is empty
or already ends with `/`. -/
def osPathJoin (a b : String) : String :=
  if strStartsWith b "/" then b
  else if strEndsWith a "/" then a ++ b
  else if a = "" then b
  else a ++ "/" ++ b

/-- Handler `list_files` from `file_tools.py`.  `path` is `none` when the
caller omits the argument; Python then substitutes the default `"/"`. -/
def list_files (F : FilesIface σ) (w : World σ) (session_id : String)
    (path : Option String) : Value × World σ :=
  match lookupReg w.registry session_id with
  | none => (noSandboxError session_id, w)
  | some r =>
    let p := path.getD "/"
    match F.list p (w.heap r) with
    | .ok (files, st') =>
        (Value.dict [("path", Value.str p), ("files", files)], w.setHeap r st')
    | .error e =>
        (Value.dict [("error", Value.str ("Error listing files: " ++ e))], w)

/-- Handler `read_file` from `file_tools.py`. -/
def read_file (F : FilesIface σ) (w : World σ) (session_id file_path : String) :
    Value × World σ :=
  match lookupReg w.registry session_id with
  | none => (noSandboxError session_id, w)
  | some r =>
    match F.read file_path (w.heap r) with
    | .ok (content, st') =>
        (Value.dict [("path", Value.str file_path), ("content", Value.str content)],
          w.setHeap r st')
    | .error e =>
        (Value.dict [("error", Value.str ("Error reading file: " ++ e))], w)

/-- Handler `write_file` from `file_tools.py`. -/
def write_file (F : FilesIface σ) (w : World σ) (session_id file_path content : String) :
    Value × World σ :=
  match lookupReg w.registry session_id with
  | none => (noSandboxError session_id, w)
  | some r =>
    match F.write file_path content (w.heap r) with
    | .ok st' =>
        (Value.dict [("path", Value.str file_path),
          ("message", Value.str "File written successfully")], w.setHeap r st')
    | .error e =>
        (Value.dict [("error", Value.str ("Error writing file: " ++ e))], w)

/-- Handler `upload_file` from `file_tools.py`: joins `destination_path`
(default `"/"` when omitted) with `file_name`, forces a leading `/` if the
join lacks one, and delegates to the backend `write`. -/
def upload_file (F : FilesIface σ) (w : World σ)
    (session_id file_name file_content : String)
    (destination_path : Option String) : Value × World σ :=
  match lookupReg w.registry session_id with
  | none => (noSandboxError session_id, w)
  | some r =>
    let dp := destination_path.getD "/"
    let joined := osPathJoin dp file_name
    let full_path := if strStartsWith joined "/" then joined else "/" ++ joined
    match F.write full_path file_content (w.heap r) with
    | .ok st' =>
        (Value.dict [("path", Value.str full_path),
          ("message", Value.str "File uploaded successfully")], w.setHeap r st')
    | .error e =>
        (Value.dict [("error", Value.str ("Error uploading file: " ++ e))], w)

/-- Handler `delete_file` from `file_tools.py`. -/
def delete_file (F : FilesIface σ) (w : World σ) (session_id file_path : String) :
    Value × World σ :=
  match lookupReg w.registry session_id with
  | none => (noSandboxError session_id, w)
  | some r =>
    match F.delete file_path (w.heap r) with
    | .ok st' =>
        (Value.dict [("path", Value.str file_path),
          ("message", Value.str "File deleted successfully")], w.setHeap r st')
    | .error e =>
        (Value.dict [("error", Value.str ("Error deleting file: " ++ e))], w)

/-- Handler `get_file_metadata` from `file_tools.py`. -/
def get_file_metadata (F : FilesIface σ) (w : World σ) (session_id file_path : String) :
    Value × World σ :=
  match lookupReg w.registry session_id with
  | none => (noSandboxError session_id, w)
  | some r =>
    match F.stat file_path (w.heap r) with
    | .ok (metadata, st') =>
        (Value.dict [("path", Value.str file_path), ("metadata", metadata)],
          w.setHeap r st')
    | .error e =>
        (Value.dict [("error", Value.str ("Error getting file metadata: " ++ e))], w)

/-- The native E2B file-info object returned by `_sandbox.filesystem.info`:
besides `is_dir` and `size` it may carry arbitrary further fields, which the
adapter's `stat` discards. -/
structure FileInfo where
  is_dir : Bool
  size : Int
  extra : List (String × Value)

/-- The native E2B sandbox object (`self._sandbox` in
`e2b_file_interface.py`) with its two method families, `files.*` and
`filesystem.*`, over a backend state `σ`. -/
structure E2BSandbox (σ : Type) where
  files_list : String → σ → Except String (Value × σ)
  files_read : String → σ → Except String (String × σ)
  files_write : String → String → σ → Except String σ
  files_delete : String → σ → Except String σ
  filesystem_remove : String → σ → Except String σ
  filesystem_info : String → σ → Except String (FileInfo × σ)

/-- The `E2BFileInterface` adapter from `e2b_file_interface.py`:
`list`/`read`/`write` forward to `_sandbox.files.*`, `delete` forwards to
`_sandbox.filesystem.remove`, and `stat` calls `_sandbox.filesystem.info`
then narrows the result to the two keys `is_dir` and `size`. -/
def E2BFileInterface (sb : E2BSandbox σ) : FilesIface σ where
  list := sb.files_list
  read := sb.files_read
  write := sb.files_write
  delete := sb.filesystem_remove
  stat := fun file_path st =>
    match sb.filesystem_info file_path st with
    | .ok (file_info, st') =>
        .ok (Value.dict [("is_dir", Value.bool file_info.is_dir),
          ("size", Value.int file_info.size)], st')
    | .error e => .error e

/-- A path-to-content store: the "stable backend" of the round-trip claim. -/
abbrev Store := List (String × String)

/-- First-match lookup in a store. -/
def storeLookup (st : Store) (p : String) : Option String :=
  match st with
  | [] => none
  | (k, v) :: rest => if k = p then some v else storeLookup rest p

/-- A concrete stable backend over `Store`: `write` records content under
the path, `read` returns the most recently stored content, the remaining
operations behave as an in-memory filesystem. -/
def mapFiles : FilesIface Store where
  list := fun _ st => .ok (Value.list (st.map fun kv => Value.str kv.1), st)
  read := fun p st =>
    match storeLookup st p with
    | some c => .ok (c, st)
    | none => .error ("File not found: " ++ p)
  write := fun p c st => .ok ((p, c) :: st)
  delete := fun p st => .ok (st.filter fun kv => kv.1 != p)
  stat := fun p st =>
    match storeLookup st p with
    | some c => .ok (Value.dict [("is_dir", Value.bool false),
        ("size", Value.int (c.length : Int))], st)
    | none => .error ("File not found: " ++ p)

/-- A world with one registered session `s1` holding an empty store. -/
def w1 : World Store := ⟨[("s1", 0)], fun _ => []⟩

/-- A backend whose every operation raises, with message `boom`. -/
def failFiles : FilesIface Unit where
  list := fun _ _ => .error "boom"
  read := fun _ _ => .error "boom"
  write := fun _ _ _ => .error "boom"
  delete := fun _ _ => .error "boom"
  stat := fun _ _ => .error "boom"

/-- A one-session world over the trivial state, for failure witnesses. -/
def wu : World Unit := ⟨[("s1", 0)], fun _ => ()⟩

/-- A concrete native E2B sandbox whose `filesystem.info` result carries
two extra native fields besides `is_dir` and `size`. -/
def sb1 : E2BSandbox Store where
  files_list := fun _ st => .ok (Value.list [], st)
  files_read := fun _ st => .ok ("", st)
  files_write := fun p c st => .ok ((p, c) :: st)
  files_delete := fun _ st => .ok st
  filesystem_remove := fun _ st => .ok st
  filesystem_info := fun p st =>
    .ok (⟨false, 42, [("name", Value.str p), ("mode", Value.int 420)]⟩, st)

/-- A native E2B sandbox whose every method raises a message naming the
method, so that which native method an adapter operation invokes is
observable from the propagated error. -/
def sbDelta : E2BSandbox Unit where
  files_list := fun _ _ => .error "files.list"
  files_read := fun _ _ => .error "files.read"
  files_write := fun _ _ _ => .error "files.write"
  files_delete := fun _ _ => .error "files.delete"
  filesystem_remove := fun _ _ => .error "filesystem.remove"
  filesystem_info := fun _ _ => .error "filesystem.info"

/-- Claim C1: each of the six tool handlers, invoked with a `session_id`
absent from the registry, returns exactly
`{"error": "No sandbox found with session ID: <id>. Create a sandbox first."}`
and makes no backend call — the result holds for every file interface `F`
over every state type, and the world is returned unchanged, so no backend
operation can have been invoked. -/
theorem C1_unknown_session_rejected {σ : Type} (F : FilesIface σ) (w : World σ)
    (session_id : String) (path destination_path : Option String)
    (file_path content file_name file_content : String)
    (h : lookupReg w.registry session_id = none) :
    list_files F w session_id path
      = (Value.dict [("error", Value.str ("No sandbox found with session ID: "
          ++ session_id ++ ". Create a sandbox first."))], w) ∧
    read_file F w session_id file_path
      = (Value.dict [("error", Value.str ("No sandbox found with session ID: "
          ++ session_id ++ ". Create a sandbox first."))], w) ∧
    write_file F w session_id file_path content
      = (Value.dict [("error", Value.str ("No sandbox found with session ID: "
          ++ session_id ++ ". Create a sandbox first."))], w) ∧
    upload_file F w session_id file_name file_content destination_path
      = (Value.dict [("error", Value.str ("No sandbox found with session ID: "
          ++ session_id ++ ". Create a sandbox first."))], w) ∧
    delete_file F w session_id file_path
      = (Value.dict [("error", Value.str ("No sandbox found with session ID: "
          ++ session_id ++ ". Create a sandbox first."))], w) ∧
    get_file_metadata F w session_id file_path
      = (Value.dict [("error", Value.str ("No sandbox found with session ID: "
          ++ session_id ++ ". Create a sandbox first."))], w) := by
  refine ⟨?_, ?_, ?_, ?_, ?_, ?_⟩ <;>
    simp [list_files, read_file, write_file, upload_file, delete_file,
      get_file_metadata, noSandboxError, h]

/-- Concrete instance of C1: `list_files` on the unknown session `s2`. -/
theorem C1_unknown_session_rejected_witness :
    list_files mapFiles w1 "s2" none
      = (Value.dict [("error",
          Value.str "No sandbox found with session ID: s2. Create a sandbox first.")], w1) :=
  (C1_unknown_session_rejected mapFiles w1 "s2" none none "/a" "c" "f" "fc" rfl).1

/-- Claim C2: for a known session, when the delegated backend call raises an
exception with message `e`, each handler returns
`{"error": "Error <verb>ing <noun>: <e>"}` with its operation-specific
prefix; handlers are total functions, so no exception propagates. -/
theorem C2_backend_error_envelope {σ : Type} (F : FilesIface σ) (w : World σ)
    (session_id : String) (r : Nat)
    (h : lookupReg w.registry session_id = some r) :
    (∀ path e, F.list (path.getD "/") (w.heap r) = .error e →
      (list_files F w session_id path).1
        = Value.dict [("error", Value.str ("Error listing files: " ++ e))]) ∧
    (∀ file_path e, F.read file_path (w.heap r) = .error e →
      (read_file F w session_id file_path).1
        = Value.dict [("error", Value.str ("Error reading file: " ++ e))]) ∧
    (∀ file_path content e, F.write file_path content (w.heap r) = .error e →
      (write_file F w session_id file_path content).1
        = Value.dict [("error", Value.str ("Error writing file: " ++ e))]) ∧
    (∀ file_name file_content destination_path e,
      (∀ p c, F.write p c (w.heap r) = .error e) →
      (upload_file F w session_id file_name file_content destination_path).1
        = Value.dict [("error", Value.str ("Error uploading file: " ++ e))]) ∧
    (∀ file_path e, F.delete file_path (w.heap r) = .error e →
      (delete_file F w session_id file_path).1
        = Value.dict [("error", Value.str ("Error deleting file: " ++ e))]) ∧
    (∀ file_path e, F.stat file_path (w.heap r) = .error e →
      (get_file_metadata F w session_id file_path).1
        = Value.dict [("error", Value.str ("Error getting file metadata: " ++ e))]) := by
  refine ⟨?_, ?_, ?_, ?_, ?_, ?_⟩
  · intro path e hx
    simp [list_files, h, hx]
  · intro file_path e hx
    simp [read_file, h, hx]
  · intro file_path content e hx
    simp [write_file, h, hx]
  · intro file_name file_content destination_path e hx
    simp [upload_file, h, hx]
  · intro file_path e hx
    simp [delete_file, h, hx]
  · intro file_path e hx
    simp [get_file_metadata, h, hx]

/-- Concrete instance of C2: `write_file` against a backend whose `write`
raises `boom` returns the `Error writing file:` envelope. -/
theorem C2_backend_error_envelope_witness :
    (write_file failFiles wu "s1" "/a.txt" "x").1
      = Value.dict [("error", Value.str "Error writing file: boom")] :=
  (C2_backend_error_envelope failFiles wu "s1" 0 rfl).2.2.1 "/a.txt" "x" "boom" rfl

/-- Claim C3: for a known session, when the native `filesystem.info` call
succeeds with a file-info object `fi` (carrying arbitrary extra native
fields), `get_file_metadata` through the `E2BFileInterface` adapter returns
`{"path": file_path, "metadata": m}` where `m` is the dictionary with
exactly the two keys `is_dir` and `size`. -/
theorem C3_metadata_exactly_two_keys {σ : Type} (sb : E2BSandbox σ) (w : World σ)
    (session_id file_path : String) (r : Nat) (fi : FileInfo) (st' : σ)
    (h : lookupReg w.registry session_id = some r)
    (hstat : sb.filesystem_info file_path (w.heap r) = .ok (fi, st')) :
    get_file_metadata (E2BFileInterface sb) w session_id file_path
      = (Value.dict [("path", Value.str file_path),
          ("metadata", Value.dict [("is_dir", Value.bool fi.is_dir),
            ("size", Value.int fi.size)])],
         w.setHeap r st') := by
  simp [get_file_metadata, E2BFileInterface, h, hstat]

/-- Concrete instance of C3: `sb1`'s native file info carries the extra
fields `name` and `mode`; the returned metadata has only `is_dir` and
`size`. -/
theorem C3_metadata_exactly_two_keys_witness :
    get_file_metadata (E2BFileInterface sb1) w1 "s1" "/a.txt"
      = (Value.dict [("path", Value.str "/a.txt"),
          ("metadata", Value.dict [("is_dir", Value.bool false),
            ("size", Value.int 42)])],
         w1.setHeap 0 []) :=
  C3_metadata_exactly_two_keys sb1 w1 "s1" "/a.txt" 0
    ⟨false, 42, [("name", Value.str "/a.txt"), ("mode", Value.int 420)]⟩ [] rfl rfl

/-- Claim C4: for a known session, `upload_file` delegates `write` at the
path obtained by `os.path.join(destination_path, file_name)` followed by
prefixing `/` when the join does not already start with one, and on success
returns `{"path": <written path>, "message": "File uploaded successfully"}`;
concretely, `destination_path = "logs"` and `"/logs/"` both write
`/logs/a.txt` (observed in the recording backend's state). -/
theorem C4_upload_path_join {σ : Type} (F : FilesIface σ) (w : World σ)
    (session_id file_name file_content dp : String) (r : Nat)
    (h : lookupReg w.registry session_id = some r) :
    (upload_file F w session_id file_name file_content (some dp) =
      (let joined := osPathJoin dp file_name
       let fp := if strStartsWith joined "/" then joined else "/" ++ joined
       match F.write fp file_content (w.heap r) with
       | .ok st' => (Value.dict [("path", Value.str fp),
           ("message", Value.str "File uploaded successfully")], w.setHeap r st')
       | .error e =>
           (Value.dict [("error", Value.str ("Error uploading file: " ++ e))], w))) ∧
    ((upload_file mapFiles w1 "s1" "a.txt" "hi" (some "logs")).1
      = Value.dict [("path", Value.str "/logs/a.txt"),
          ("message", Value.str "File uploaded successfully")]) ∧
    ((upload_file mapFiles w1 "s1" "a.txt" "hi" (some "logs")).2.heap 0
      = [("/logs/a.txt", "hi")]) ∧
    ((upload_file mapFiles w1 "s1" "a.txt" "hi" (some "/logs/")).1
      = Value.dict [("path", Value.str "/logs/a.txt"),
          ("message", Value.str "File uploaded successfully")]) ∧
    ((upload_file mapFiles w1 "s1" "a.txt" "hi" (some "/logs/")).2.heap 0
      = [("/logs/a.txt", "hi")]) := by
  refine ⟨?_, rfl, rfl, rfl, rfl⟩
  simp [upload_file, h]

/-- Concrete instance of C4 through the general part of the theorem:
uploading `a.txt` to `logs` writes at `/logs/a.txt`. -/
theorem C4_upload_path_join_witness :
    upload_file mapFiles w1 "s1" "a.txt" "hi" (some "logs")
      = (Value.dict [("path", Value.str "/logs/a.txt"),
          ("message", Value.str "File uploaded successfully")],
         w1.setHeap 0 [("/logs/a.txt", "hi")]) :=
  (C4_upload_path_join mapFiles w1 "s1" "a.txt" "hi" "logs" 0 rfl).1

/-- Counterexample to claim C5: the adapter's `delete` does not invoke the
native `files.delete`: on a sandbox whose every native method reports its
own name, `delete` propagates `filesystem.remove`, not `files.delete`. -/
theorem C5_counterexample :
    (E2BFileInterface sbDelta).delete "/a.txt" () ≠ sbDelta.files_delete "/a.txt" () := by
  intro hcontra
  simp [E2BFileInterface, sbDelta] at hcontra

/-- Claim C5 (amended): in the `E2BFileInterface` adapter, `stat` invokes
the backend's `filesystem.info` and `delete` invokes the backend's
`filesystem.remove`, while the remaining three operations (list, read,
write) invoke the backend's `files.list`, `files.read`, `files.write`
respectively. -/
theorem C5_amended_call_mapping {σ : Type} (sb : E2BSandbox σ) (p c : String) (st : σ) :
    (E2BFileInterface sb).list p st = sb.files_list p st ∧
    (E2BFileInterface sb).read p st = sb.files_read p st ∧
    (E2BFileInterface sb).write p c st = sb.files_write p c st ∧
    (E2BFileInterface sb).delete p st = sb.filesystem_remove p st ∧
    (E2BFileInterface sb).stat p st =
      (match sb.filesystem_info p st with
       | .ok (fi, st') => .ok (Value.dict [("is_dir", Value.bool fi.is_dir),
           ("size", Value.int fi.size)], st')
       | .error e => .error e) :=
  ⟨rfl, rfl, rfl, rfl, rfl⟩

/-- Claim C6: against the stable map backend, writing content `c` at path
`p` and then reading `p` in the same session returns
`{"path": p, "content": c}`. -/
theorem C6_write_read_round_trip (w : World Store) (session_id p c : String) (r : Nat)
    (h : lookupReg w.registry session_id = some r) :
    (read_file mapFiles (write_file mapFiles w session_id p c).2 session_id p).1
      = Value.dict [("path", Value.str p), ("content", Value.str c)] := by
  simp [write_file, read_file, mapFiles, h, World.setHeap, storeLookup]

/-- Concrete instance of C6 at session `s1`, path `/a.txt`, content `hello`. -/
theorem C6_write_read_round_trip_witness :
    (read_file mapFiles (write_file mapFiles w1 "s1" "/a.txt" "hello").2 "s1" "/a.txt").1
      = Value.dict [("path", Value.str "/a.txt"), ("content", Value.str "hello")] :=
  C6_write_read_round_trip w1 "s1" "/a.txt" "hello" 0 rfl

/-- Claim C7: for a known session, `list_files` called without a `path`
argument invokes the backend's `list` with the default path `/` and on
success returns `{"path": "/", "files": <backend result>}`. -/
theorem C7_list_files_default_path {σ : Type} (F : FilesIface σ) (w : World σ)
    (session_id : String) (r : Nat)
    (h : lookupReg w.registry session_id = some r) :
    list_files F w session_id none =
      (match F.list "/" (w.heap r) with
       | .ok (files, st') =>
           (Value.dict [("path", Value.str "/"), ("files", files)], w.setHeap r st')
       | .error e =>
           (Value.dict [("error", Value.str ("Error listing files: " ++ e))], w)) := by
  simp [list_files, h]

/-- Concrete instance of C7: listing `s1` with no path against the map
backend lists `/`. -/
theorem C7_list_files_default_path_witness :
    list_files mapFiles w1 "s1" none
      = (Value.dict [("path", Value.str "/"), ("files", Value.list [])],
         w1.setHeap 0 []) :=
  C7_list_files_default_path mapFiles w1 "s1" 0 rfl

/-- Helper: `list_files` never changes the registry component. -/
theorem list_files_keeps_registry {σ : Type} (F : FilesIface σ) (w : World σ)
    (session_id : String) (path : Option String) :
    ((list_files F w session_id path).2).registry = w.registry := by
  unfold list_files
  split
  · rfl
  · dsimp only
    split <;> rfl

/-- Helper: `read_file` never changes the registry component. -/
theorem read_file_keeps_registry {σ : Type} (F : FilesIface σ) (w : World σ)
    (session_id file_path : String) :
    ((read_file F w session_id file_path).2).registry = w.registry := by
  unfold read_file
  split
  · rfl
  · split <;> rfl

/-- Helper: `write_file` never changes the registry component. -/
theorem write_file_keeps_registry {σ : Type} (F : FilesIface σ) (w : World σ)
    (session_id file_path content : String) :
    ((write_file F w session_id file_path content).2).registry = w.registry := by
  unfold write_file
  split
  · rfl
  · split <;> rfl

/-- Helper: `upload_file` never changes the registry component. -/
theorem upload_file_keeps_registry {σ : Type} (F : FilesIface σ) (w : World σ)
    (session_id file_name file_content : String) (destination_path : Option String) :
    ((upload_file F w session_id file_name file_content destination_path).2).registry
      = w.registry := by
  unfold upload_file
  split
  · rfl
  · dsimp only
    split <;> rfl

/-- Helper: `delete_file` never changes the registry component. -/
theorem delete_file_keeps_registry {σ : Type} (F : FilesIface σ) (w : World σ)
    (session_id file_path : String) :
    ((delete_file F w session_id file_path).2).registry = w.registry := by
  unfold delete_file
  split
  · rfl
  · split <;> rfl

/-- Helper: `get_file_metadata` never changes the registry component. -/
theorem get_file_metadata_keeps_registry {σ : Type} (F : FilesIface σ) (w : World σ)
    (session_id file_path : String) :
    ((get_file_metadata F w session_id file_path).2).registry = w.registry := by
  unfold get_file_metadata
  split
  · rfl
  · split <;> rfl

/-- Claim C8: no tool handler mutates the registry — for every backend,
every session id (known or not) and every argument, the `active_sandboxes`
mapping after the call equals the mapping before the call, for all six
handlers. -/
theorem C8_registry_never_mutated {σ : Type} (F : FilesIface σ) (w : World σ)
    (session_id file_path content file_name file_content : String)
    (path destination_path : Option String) :
    ((list_files F w session_id path).2).registry = w.registry ∧
    ((read_file F w session_id file_path).2).registry = w.registry ∧
    ((write_file F w session_id file_path content).2).registry = w.registry ∧
    ((upload_file F w session_id file_name file_content destination_path).2).registry
      = w.registry ∧
    ((delete_file F w session_id file_path).2).registry = w.registry ∧
    ((get_file_metadata F w session_id file_path).2).registry = w.registry :=
  ⟨list_files_keeps_registry F w session_id path,
   read_file_keeps_registry F w session_id file_path,
   write_file_keeps_registry F w session_id file_path content,
   upload_file_keeps_registry F w session_id file_name file_content destination_path,
   delete_file_keeps_registry F w session_id file_path,
   get_file_metadata_keeps_registry F w session_id file_path⟩

/-- Claim C9: the `E2BFileInterface` adapter performs no error translation:
for each of its five operations, an exception raised by the underlying
native call propagates unchanged out of the adapter method. -/
theorem C9_adapter_propagates_errors {σ : Type} (sb : E2BSandbox σ)
    (p c : String) (st : σ) (e : String) :
    (sb.files_list p st = .error e → (E2BFileInterface sb).list p st = .error e) ∧
    (sb.files_read p st = .error e → (E2BFileInterface sb).read p st = .error e) ∧
    (sb.files_write p c st = .error e → (E2BFileInterface sb).write p c st = .error e) ∧
    (sb.filesystem_remove p st = .error e → (E2BFileInterface sb).delete p st = .error e) ∧
    (sb.filesystem_info p st = .error e → (E2BFileInterface sb).stat p st = .error e) := by
  refine ⟨fun hx => hx, fun hx => hx, fun hx => hx, fun hx => hx, fun hx => ?_⟩
  simp [E2BFileInterface, hx]

/-- Concrete instance of C9 on `sbDelta`: each adapter operation surfaces
the exact message raised by the native method it wraps. -/
theorem C9_adapter_propagates_errors_witness :
    (E2BFileInterface sbDelta).list "/a" () = .error "files.list" ∧
    (E2BFileInterface sbDelta).read "/a" () = .error "files.read" ∧
    (E2BFileInterface sbDelta).write "/a" "x" () = .error "files.write" ∧
    (E2BFileInterface sbDelta).delete "/a" () = .error "filesystem.remove" ∧
    (E2BFileInterface sbDelta).stat "/a" () = .error "filesystem.info" :=
  ⟨(C9_adapter_propagates_errors sbDelta "/a" "x" () "files.list").1 rfl,
   (C9_adapter_propagates_errors sbDelta "/a" "x" () "files.read").2.1 rfl,
   (C9_adapter_propagates_errors sbDelta "/a" "x" () "files.write").2.2.1 rfl,
   (C9_adapter_propagates_errors sbDelta "/a" "x" () "filesystem.remove").2.2.2.1 rfl,
   (C9_adapter_propagates_errors sbDelta "/a" "x" () "filesystem.info").2.2.2.2 rfl⟩

/-- Claim C10: for a known session, when `file_name` begins with `/`, the
join discards `destination_path` entirely: `upload_file` delegates `write`
at `file_name` itself and echoes `file_name` as the written path, for every
`destination_path` (including an omitted one). -/
theorem C10_absolute_file_name_discards_destination {σ : Type} (F : FilesIface σ)
    (w : World σ) (session_id file_name file_content : String)
    (destination_path : Option String) (r : Nat)
    (h : lookupReg w.registry session_id = some r)
    (habs : strStartsWith file_name "/" = true) :
    upload_file F w session_id file_name file_content destination_path =
      (match F.write file_name file_content (w.heap r) with
       | .ok st' => (Value.dict [("path", Value.str file_name),
           ("message", Value.str "File uploaded successfully")], w.setHeap r st')
       | .error e =>
           (Value.dict [("error", Value.str ("Error uploading file: " ++ e))], w)) := by
  simp [upload_file, osPathJoin, h, habs]

/-- Concrete instance of C10: uploading `/etc/x` with the unrelated
destination `ignored` writes at `/etc/x`. -/
theorem C10_absolute_file_name_discards_destination_witness :
    upload_file mapFiles w1 "s1" "/etc/x" "v" (some "ignored")
      = (Value.dict [("path", Value.str "/etc/x"),
          ("message", Value.str "File uploaded successfully")],
         w1.setHeap 0 [("/etc/x", "v")]) :=
  C10_absolute_file_name_discards_destination mapFiles w1 "s1" "/etc/x" "v"
    (some "ignored") 0 rfl rfl

end McpSandbox
